import Mathlib

/-!
Shallow embedding of `src/nlp_api.py` (toxic-chat-classifier-api).

The Python module keeps two process-wide globals, `nlp_model` (the loaded
spaCy pipeline, `None` until populated) and `model_loaded` (a boolean flag).
`load_model_from_s3` lists a fixed S3 bucket/object key space, mirrors the
non-directory objects into a fresh `tempfile.mkdtemp()` subdirectory and
calls `spacy.load` on it.  `load_model` consults the globals, probes
`/tmp/toxic_chat_model_full/config.cfg` as a warm-start marker, and
otherwise delegates to `load_model_from_s3`.  `lambda_handler` parses the
event, validates the presence of the `text` field, triggers the load,
runs `predict_toxicity` and shapes an HTTP-style response.

Embedding conventions:
  * Python floats carry the model scores; the claims about them are purely
    order-theoretic (`max`, `>= 0.5`), so scores are embedded as `ℚ`.
  * Exceptions become `Except String`; a caught exception's `str(e)` is the
    carried message.
  * The external world (S3 client, filesystem, `json.loads`, `spacy.load`,
    `tempfile.mkdtemp`) is an explicit environment `Env` of uninterpreted
    deterministic operations; the spaCy model itself is an uninterpreted
    function from the forwarded value to a document with a `cats` table.
  * Observable side effects (S3 listing, per-object downloads, the local
    marker probe, `spacy.load`, and the invocation of the predictor /
    underlying model) are accumulated in an explicit effect trace.
  * `json.dumps` is injective on the values this program serialises, so a
    response body is embedded as the JSON value handed to `json.dumps`.
-/

set_option autoImplicit false

namespace NlpApi

/-- JSON values, as produced by `json.loads` / consumed by `json.dumps`. -/
inductive Json where
  | null : Json
  | bool (b : Bool) : Json
  | num (q : ℚ) : Json
  | str (s : String) : Json
  | arr (xs : List Json) : Json
  | obj (fields : List (String × Json)) : Json

/-- A spaCy `Doc`: all the program reads from it is the `cats` mapping
(`doc.cats["TOXIC"]`, `doc.cats["NOT_TOXIC"]`); a missing key raises. -/
structure Doc where
  cats : String → Option ℚ

/-- The loaded spaCy pipeline: called on the forwarded value, it may raise
(e.g. on a non-string argument) or produce a `Doc`. -/
def Model : Type := Json → Except String Doc

/-- The two process-wide globals `nlp_model` / `model_loaded`
(src/nlp_api.py lines 17-18). -/
structure ModelState where
  nlp_model : Option Model
  model_loaded : Bool

/-- Observable side effects of one invocation. -/
inductive Effect where
  | probeLocal (path : String) : Effect
  | listObjects (bucket pre : String) : Effect
  | downloadFile (bucket key localPath : String) : Effect
  | spacyLoad (path : String) : Effect
  | callPredict (arg : Json) : Effect
  | invokeModel (arg : Json) : Effect

/-- The deterministic external world of one invocation. -/
structure Env where
  json_loads : String → Except String Json
  tmp_exists : String → Bool
  mkdtemp : String
  s3_list : Except String (Option (List String))
  s3_download : String → String → Except String Unit
  spacy_load : String → Except String Model

def bucket_name : String := "toxic-chat-classifier"

def model_prefix : String := "toxic_chat_model_full/"

/-- `os.path.join` for the relative paths this program builds. -/
def pathJoin (a b : String) : String := a ++ "/" ++ b

/-- The download target directory `os.path.join(tempfile.mkdtemp(), "toxic_chat_model_full")`
(src/nlp_api.py lines 37-38). -/
def s3_model_path (env : Env) : String := pathJoin env.mkdtemp "toxic_chat_model_full"

/-- The fixed local path probed on warm start (src/nlp_api.py line 79). -/
def warm_model_path : String := "/tmp/toxic_chat_model_full"

/-- The warm-start marker file `os.path.join("/tmp/toxic_chat_model_full", "config.cfg")`. -/
def warm_marker_path : String := pathJoin warm_model_path "config.cfg"

/-- The download loop (src/nlp_api.py lines 48-59): each listed key that does
not end in `/` is downloaded to its mirrored relative path; the first
failing download aborts the loop. -/
def downloadAll (env : Env) (model_path : String) :
    List String → Except String Unit × List Effect
  | [] => (Except.ok (), [])
  | key :: rest =>
    if key.endsWith "/" then downloadAll env model_path rest
    else
      let relative_path := key.replace model_prefix ""
      let local_file_path := pathJoin model_path relative_path
      match env.s3_download key local_file_path with
      | Except.error e => (Except.error e, [Effect.downloadFile bucket_name key local_file_path])
      | Except.ok _ =>
        let r := downloadAll env model_path rest
        (r.1, Effect.downloadFile bucket_name key local_file_path :: r.2)

/-- `load_model_from_s3` (src/nlp_api.py lines 21-67): list the bucket under
the model key space, raise if no `Contents`, download every non-directory
object, then `spacy.load` the mirrored directory; any failure is re-raised. -/
def load_model_from_s3 (env : Env) : Except String Model × List Effect :=
  let model_path := s3_model_path env
  match env.s3_list with
  | Except.error e => (Except.error e, [Effect.listObjects bucket_name model_prefix])
  | Except.ok none =>
    (Except.error ("No files found in " ++ model_prefix),
     [Effect.listObjects bucket_name model_prefix])
  | Except.ok (some keys) =>
    match downloadAll env model_path keys with
    | (Except.error e, tr) => (Except.error e, Effect.listObjects bucket_name model_prefix :: tr)
    | (Except.ok _, tr) =>
      match env.spacy_load model_path with
      | Except.error e =>
        (Except.error e,
         Effect.listObjects bucket_name model_prefix :: (tr ++ [Effect.spacyLoad model_path]))
      | Except.ok m =>
        (Except.ok m,
         Effect.listObjects bucket_name model_prefix :: (tr ++ [Effect.spacyLoad model_path]))

/-- `load_model` (src/nlp_api.py lines 70-93): return the cached handle when
`model_loaded and nlp_model is not None`; otherwise probe the warm-start
marker; when the marker is present the code only sets `model_loaded = True`
and returns the (possibly empty) global; otherwise it fetches from S3,
stores the handle and sets the flag; a fetch failure is re-raised with the
globals untouched. -/
def load_model (env : Env) (st : ModelState) :
    Except String (Option Model) × ModelState × List Effect :=
  if st.model_loaded && st.nlp_model.isSome then
    (Except.ok st.nlp_model, st, [])
  else
    if env.tmp_exists warm_marker_path then
      (Except.ok st.nlp_model, { st with model_loaded := true }, [Effect.probeLocal warm_marker_path])
    else
      match load_model_from_s3 env with
      | (Except.error e, tr) => (Except.error e, st, Effect.probeLocal warm_marker_path :: tr)
      | (Except.ok m, tr) =>
        (Except.ok (some m), { nlp_model := some m, model_loaded := true },
         Effect.probeLocal warm_marker_path :: tr)

/-- The success payload of `predict_toxicity` (src/nlp_api.py lines 173-179). -/
structure PredResult where
  text : Json
  is_toxic : Bool
  toxic_score : ℚ
  not_toxic_score : ℚ
  confidence : ℚ

/-- `predict_toxicity` (src/nlp_api.py lines 158-182): raise when the global
model handle is empty, otherwise run the model on the forwarded value, read
the two category scores, classify with the 0.5 threshold and report the
larger score as the confidence. -/
def predict_toxicity (nm : Option Model) (text : Json) :
    Except String PredResult × List Effect :=
  match nm with
  | none => (Except.error "Model not loaded", [])
  | some m =>
    match m text with
    | Except.error e => (Except.error e, [Effect.invokeModel text])
    | Except.ok doc =>
      match doc.cats "TOXIC" with
      | none => (Except.error "KeyError: TOXIC", [Effect.invokeModel text])
      | some toxic_score =>
        match doc.cats "NOT_TOXIC" with
        | none => (Except.error "KeyError: NOT_TOXIC", [Effect.invokeModel text])
        | some nt =>
          (Except.ok
            { text := text
              is_toxic := decide ((0.5 : ℚ) ≤ toxic_score)
              toxic_score := toxic_score
              not_toxic_score := nt
              confidence := max toxic_score nt },
           [Effect.invokeModel text])

/-- Substring test backing Python's `in` on strings. -/
def strContains (hay needle : String) : Bool :=
  (List.range (hay.length + 1)).any (fun i => needle.isPrefixOf (hay.drop i))

/-- Python's `'text' in body` over a parsed JSON value: key membership on a
dict, substring test on a string, element equality on a list, `TypeError`
otherwise. -/
def pyIn (needle : String) (v : Json) : Except String Bool :=
  match v with
  | Json.obj fields => Except.ok (fields.any (fun p => needle == p.1))
  | Json.str s => Except.ok (strContains s needle)
  | Json.arr xs =>
    Except.ok (xs.any (fun x => match x with | Json.str s => s == needle | _ => false))
  | _ => Except.error "TypeError: argument of type is not iterable"

/-- Python's `body['text']` over a parsed JSON value: dict lookup (the key is
present whenever `pyIn` said so), `TypeError` on non-dicts. -/
def pyGet (v : Json) (key : String) : Except String Json :=
  match v with
  | Json.obj fields =>
    match fields.lookup key with
    | some x => Except.ok x
    | none => Except.error ("KeyError: " ++ key)
  | _ => Except.error "TypeError: string indices must be integers"

/-- The headers attached to every response (src/nlp_api.py lines 112-115,
132-135, 145-148). -/
def stdHeaders : List (String × String) :=
  [("Content-Type", "application/json"), ("Access-Control-Allow-Origin", "*")]

/-- An HTTP-style Lambda proxy response; `body` is the JSON value handed to
`json.dumps`. -/
structure Response where
  statusCode : Nat
  headers : List (String × String)
  body : Json

/-- The catch-all 500 response (src/nlp_api.py lines 143-153). -/
def errorResponse (e : String) : Response :=
  { statusCode := 500
    headers := stdHeaders
    body := Json.obj [("error", Json.str e), ("message", Json.str "Internal server error")] }

/-- The 400 response for a missing `text` field (src/nlp_api.py lines 110-119). -/
def missingTextResponse : Response :=
  { statusCode := 400
    headers := stdHeaders
    body := Json.obj [("error", Json.str "Missing required field: text")] }

/-- `json.dumps(result)` for the success payload (src/nlp_api.py lines 173-179). -/
def resultToJson (r : PredResult) : Json :=
  Json.obj
    [("text", r.text), ("is_toxic", Json.bool r.is_toxic),
     ("toxic_score", Json.num r.toxic_score),
     ("not_toxic_score", Json.num r.not_toxic_score),
     ("confidence", Json.num r.confidence)]

/-- Request-body extraction (src/nlp_api.py lines 101-107): with a `body`
key the envelope's string is fed to `json.loads` (a non-string raises);
otherwise the event itself is the body. -/
def parseBody (env : Env) (event : List (String × Json)) : Except String Json :=
  match event.lookup "body" with
  | some (Json.str s) => env.json_loads s
  | some _ => Except.error "TypeError: the JSON object must be str, bytes or bytearray"
  | none => Except.ok (Json.obj event)

/-- `lambda_handler` (src/nlp_api.py lines 96-153): parse, validate the
presence of `text`, load the model, predict, shape the response; every
raised exception is caught and shaped into the 500 response. -/
def lambda_handler (env : Env) (st : ModelState) (event : List (String × Json)) :
    Response × ModelState × List Effect :=
  match parseBody env event with
  | Except.error e => (errorResponse e, st, [])
  | Except.ok body =>
    match pyIn "text" body with
    | Except.error e => (errorResponse e, st, [])
    | Except.ok false => (missingTextResponse, st, [])
    | Except.ok true =>
      match pyGet body "text" with
      | Except.error e => (errorResponse e, st, [])
      | Except.ok text =>
        match load_model env st with
        | (Except.error e, st2, tr) => (errorResponse e, st2, tr)
        | (Except.ok _, st2, tr) =>
          match predict_toxicity st2.nlp_model text with
          | (Except.error e, tr2) =>
            (errorResponse e, st2, tr ++ (Effect.callPredict text :: tr2))
          | (Except.ok r, tr2) =>
            ({ statusCode := 200, headers := stdHeaders, body := resultToJson r },
             st2, tr ++ (Effect.callPredict text :: tr2))

/-! ### Concrete test fixtures -/

/-- A fresh process: `nlp_model = None`, `model_loaded = False`. -/
def st0 : ModelState := { nlp_model := none, model_loaded := false }

/-- A document whose category table assigns `TOXIC ↦ 7/10`, `NOT_TOXIC ↦ 3/10`. -/
def docConst : Doc :=
  { cats := fun s =>
      if s = "TOXIC" then some (7/10)
      else if s = "NOT_TOXIC" then some (3/10)
      else none }

/-- A model producing `docConst` on every input. -/
def mConst : Model := fun _ => Except.ok docConst

/-- An environment whose warm-start marker probe succeeds; all remote
operations are unreachable on the paths exercised with it. -/
def envWarm : Env :=
  { json_loads := fun _ => Except.error "unused"
    tmp_exists := fun _ => true
    mkdtemp := "/tmp/tmpw3k9ab"
    s3_list := Except.error "unused"
    s3_download := fun _ _ => Except.error "unused"
    spacy_load := fun _ => Except.error "unused" }

/-- An environment with no local marker whose S3 listing raises `boom`. -/
def envFail : Env :=
  { json_loads := fun _ => Except.error "unused"
    tmp_exists := fun _ => false
    mkdtemp := "/tmp/tmpw3k9ab"
    s3_list := Except.error "boom"
    s3_download := fun _ _ => Except.error "unused"
    spacy_load := fun _ => Except.error "unused" }

/-- An environment with no local marker where provisioning succeeds: the
listing returns an empty `Contents` array and `spacy.load` yields `mConst`. -/
def envOk : Env :=
  { json_loads := fun _ => Except.error "unused"
    tmp_exists := fun _ => false
    mkdtemp := "/tmp/tmpw3k9ab"
    s3_list := Except.ok (some [])
    s3_download := fun _ _ => Except.ok ()
    spacy_load := fun _ => Except.ok mConst }

/-! ### Theorems -/

/-- **C1.** The claim says that with the warm-start marker present and the
process not yet loaded, `load_model` loads the model from the local path and
returns a non-empty handle.  The code does neither: starting from a fresh
process with the marker present, it returns `Except.ok none` (the untouched
empty global) and its only effect is the marker probe — in particular no
`spacyLoad` effect occurs, so nothing is ever loaded from the local path. -/
theorem warm_start_returns_empty_handle :
    (load_model envWarm st0).1 = Except.ok none ∧
    (load_model envWarm st0).2.2 = [Effect.probeLocal warm_marker_path] :=
  ⟨rfl, rfl⟩

/-- **C2.** The claimed invariant — `model_loaded = true` iff the handle is
populated — is broken by `load_model`: on the warm-start path from a fresh
process it sets the flag to `True` while leaving `nlp_model = None`. -/
theorem warm_start_breaks_invariant :
    ((load_model envWarm st0).2.1).model_loaded = true ∧
    ((load_model envWarm st0).2.1).nlp_model = none :=
  ⟨rfl, rfl⟩

/-- **C8.** The claim says the remote-fetch download target equals the
warm-start probe location.  It does not: `load_model_from_s3` mirrors the
objects into `tempfile.mkdtemp() + "/toxic_chat_model_full"` (here the fresh
temp directory is `/tmp/tmpw3k9ab`), while `load_model` probes the fixed
`/tmp/toxic_chat_model_full`. -/
theorem download_target_differs_from_probe :
    s3_model_path envWarm ≠ warm_model_path := by
  decide

/-- **C5.** Every successful prediction reports as `confidence` exactly the
maximum of its `toxic_score` and `not_toxic_score`. -/
theorem confidence_eq_max (nm : Option Model) (t : Json) (r : PredResult)
    (h : (predict_toxicity nm t).1 = Except.ok r) :
    r.confidence = max r.toxic_score r.not_toxic_score := by
  cases nm with
  | none => simp [predict_toxicity] at h
  | some m =>
    cases hm : m t with
    | error e => simp [predict_toxicity, hm] at h
    | ok doc =>
      cases hc : doc.cats "TOXIC" with
      | none => simp [predict_toxicity, hm, hc] at h
      | some ts =>
        cases hn : doc.cats "NOT_TOXIC" with
        | none => simp [predict_toxicity, hm, hc, hn] at h
        | some nts =>
          simp [predict_toxicity, hm, hc, hn] at h
          subst h
          rfl

/-- The result `predict_toxicity` produces from `mConst` on `"hi"`. -/
def rConst : PredResult :=
  { text := Json.str "hi"
    is_toxic := decide ((0.5 : ℚ) ≤ 7/10)
    toxic_score := 7/10
    not_toxic_score := 3/10
    confidence := max (7/10) (3/10) }

/-- Witness for C5 at a concrete model and input. -/
theorem confidence_eq_max_witness :
    rConst.confidence = max rConst.toxic_score rConst.not_toxic_score :=
  confidence_eq_max (some mConst) (Json.str "hi") rConst rfl

/-- **C6.** Every successful prediction classifies `is_toxic = true` exactly
when `toxic_score >= 0.5`. -/
theorem is_toxic_iff_half_le (nm : Option Model) (t : Json) (r : PredResult)
    (h : (predict_toxicity nm t).1 = Except.ok r) :
    r.is_toxic = true ↔ (0.5 : ℚ) ≤ r.toxic_score := by
  cases nm with
  | none => simp [predict_toxicity] at h
  | some m =>
    cases hm : m t with
    | error e => simp [predict_toxicity, hm] at h
    | ok doc =>
      cases hc : doc.cats "TOXIC" with
      | none => simp [predict_toxicity, hm, hc] at h
      | some ts =>
        cases hn : doc.cats "NOT_TOXIC" with
        | none => simp [predict_toxicity, hm, hc, hn] at h
        | some nts =>
          simp [predict_toxicity, hm, hc, hn] at h
          subst h
          simp

/-- Witness for C6 at a concrete model and input. -/
theorem is_toxic_iff_half_le_witness :
    (rConst.is_toxic = true ↔ (0.5 : ℚ) ≤ rConst.toxic_score) :=
  is_toxic_iff_half_le (some mConst) (Json.str "hi") rConst rfl

/-- **C7.** Once the flag is set and the handle populated, `load_model`
returns the cached handle, leaves the state untouched and performs no
effect at all: no probe, no listing, no download. -/
theorem cached_handle_no_io (env : Env) (st : ModelState) (m : Model)
    (h1 : st.nlp_model = some m) (h2 : st.model_loaded = true) :
    load_model env st = (Except.ok (some m), st, []) := by
  unfold load_model
  rw [h1, h2]
  simp

/-- Witness for C7: a loaded state under any environment. -/
theorem cached_handle_no_io_witness :
    load_model envWarm { nlp_model := some mConst, model_loaded := true } =
      (Except.ok (some mConst), { nlp_model := some mConst, model_loaded := true }, []) :=
  cached_handle_no_io envWarm { nlp_model := some mConst, model_loaded := true } mConst rfl rfl

/-- **C3.** Any provisioning failure — the S3 listing raising, an empty
`Contents`, a failing download, or `spacy.load` raising all surface as
`load_model_from_s3` returning an error — is re-raised unchanged by
`load_model`, with the globals left exactly as they were: a fresh process
stays not-loaded, so the next invocation retries the full fetch. -/
theorem provision_failure_leaves_not_loaded (env : Env) (st : ModelState) (e : String)
    (hs : st.model_loaded = false)
    (hw : env.tmp_exists warm_marker_path = false)
    (hf : (load_model_from_s3 env).1 = Except.error e) :
    (load_model env st).1 = Except.error e ∧ (load_model env st).2.1 = st := by
  unfold load_model
  rw [hs, hw]
  rcases hls : load_model_from_s3 env with ⟨r, tr⟩
  rw [hls] at hf
  simp only at hf
  subst hf
  simp

/-- Witness for C3: a listing failure in a fresh process. -/
theorem provision_failure_leaves_not_loaded_witness :
    (load_model envFail st0).1 = Except.error "boom" ∧ (load_model envFail st0).2.1 = st0 :=
  provision_failure_leaves_not_loaded envFail st0 "boom" rfl rfl rfl

/-- If a key is absent from an association list, the membership scan is false. -/
theorem lookup_none_any_eq_false (fs : List (String × Json)) (k : String)
    (h : fs.lookup k = none) : fs.any (fun p => k == p.1) = false := by
  induction fs with
  | nil => rfl
  | cons a t ih =>
    cases hk : k == a.1 with
    | true => simp [List.lookup, hk] at h
    | false =>
      simp only [List.lookup, hk] at h
      simp [hk, ih h]

/-- If a key is present in an association list, the membership scan is true. -/
theorem lookup_some_any_eq_true (fs : List (String × Json)) (k : String) (v : Json)
    (h : fs.lookup k = some v) : fs.any (fun p => k == p.1) = true := by
  induction fs with
  | nil => simp [List.lookup] at h
  | cons a t ih =>
    cases hk : k == a.1 with
    | true => simp [hk]
    | false =>
      simp only [List.lookup, hk] at h
      simp [hk, ih h]

/-- **C4.** When the parsed body is a dict without a `text` key, the handler
answers the fixed 400 response whose body carries the
`Missing required field: text` error, leaves the globals untouched and
performs no effect at all — in particular the provisioner is never invoked. -/
theorem missing_text_field_400 (env : Env) (st : ModelState)
    (event : List (String × Json)) (fs : List (String × Json))
    (hp : parseBody env event = Except.ok (Json.obj fs))
    (ht : fs.lookup "text" = none) :
    lambda_handler env st event = (missingTextResponse, st, []) := by
  have hin : pyIn "text" (Json.obj fs) = Except.ok false := by
    simp [pyIn, lookup_none_any_eq_false fs "text" ht]
  unfold lambda_handler
  rw [hp]
  dsimp only
  rw [hin]

/-- Witness for C4: a direct-invocation event with no `text` field. -/
theorem missing_text_field_400_witness :
    lambda_handler envWarm st0 [("message", Json.str "hi")] = (missingTextResponse, st0, []) :=
  missing_text_field_400 envWarm st0 [("message", Json.str "hi")] [("message", Json.str "hi")]
    rfl rfl

/-- **C9.** On every event, state and environment, the handler returns a
response whose status code is 200, 400 or 500 and whose headers are exactly
the JSON content-type and permissive CORS pair; every internal failure is
caught and shaped rather than propagated. -/
theorem handler_response_contract (env : Env) (st : ModelState)
    (event : List (String × Json)) :
    ((lambda_handler env st event).1.statusCode = 200 ∨
     (lambda_handler env st event).1.statusCode = 400 ∨
     (lambda_handler env st event).1.statusCode = 500) ∧
    (lambda_handler env st event).1.headers = stdHeaders := by
  unfold lambda_handler
  repeat' split
  all_goals simp [errorResponse, missingTextResponse]

/-- **C10.** Validation looks only at the presence of the `text` key: when
the parsed body is a dict carrying `text` with any value `v` (null, number,
object, ...), no 400 response is produced and `v` itself is handed to the
model-invocation step, provided provisioning does not raise. -/
theorem text_value_forwarded (env : Env) (st : ModelState)
    (event : List (String × Json)) (fs : List (String × Json)) (v : Json)
    (hp : parseBody env event = Except.ok (Json.obj fs))
    (hv : fs.lookup "text" = some v)
    (hl : ∃ w, (load_model env st).1 = Except.ok w) :
    (lambda_handler env st event).1.statusCode ≠ 400 ∧
    Effect.callPredict v ∈ (lambda_handler env st event).2.2 := by
  obtain ⟨w, hw⟩ := hl
  have hin : pyIn "text" (Json.obj fs) = Except.ok true := by
    simp [pyIn, lookup_some_any_eq_true fs "text" v hv]
  have hget : pyGet (Json.obj fs) "text" = Except.ok v := by
    simp [pyGet, hv]
  unfold lambda_handler
  rw [hp]
  dsimp only
  rw [hin]
  dsimp only
  rw [hget]
  dsimp only
  rcases hlm : load_model env st with ⟨r, st2, tr⟩
  rw [hlm] at hw
  simp only at hw
  subst hw
  dsimp only
  rcases hpt : predict_toxicity st2.nlp_model v with ⟨pr, tr2⟩
  cases pr with
  | error e => simp [errorResponse]
  | ok pres => simp

/-- Witness for C10: a `text` field holding JSON `null` passes validation and
is forwarded to the model invocation. -/
theorem text_value_forwarded_witness :
    (lambda_handler envOk st0 [("text", Json.null)]).1.statusCode ≠ 400 ∧
    Effect.callPredict Json.null ∈ (lambda_handler envOk st0 [("text", Json.null)]).2.2 :=
  text_value_forwarded envOk st0 [("text", Json.null)] [("text", Json.null)] Json.null
    rfl rfl ⟨some mConst, rfl⟩

end NlpApi
